import Mathlib

/-
  Verification of the Intelligent-Warehouse frontend and of the inventory
  ledger contract it relies on.

  Shallow embedding conventions:
  - TypeScript numbers become Int (or Nat where the code only produces
    non-negative values), strings become String, null or undefined become
    Option, and JavaScript falsiness of numbers (0, null, undefined) and of
    strings (the empty string) is made explicit at each use site.
  - The client API layer (src/unnamed/part_000) is embedded as pure
    functions over an explicit cache state.
  - Backend ledger behaviour is not part of src/; where a claim depends on
    it, the corresponding definition is modelled from the spec and marked
    as such in its doc comment.
-/

namespace Wms

/-! ## Data model (from src/unnamed/part_007, type declarations) -/

/-- Inventory row as declared in the frontend data layer: id, material_id,
location_id, quantity, reserved, version. -/
structure Inventory where
  id : Int
  material_id : Int
  location_id : Int
  quantity : Int
  reserved : Int
  version : Int
deriving DecidableEq, Repr

/-- Location row: id, code, name, warehouse_id. -/
structure Location where
  id : Int
  code : String
  name : String
  warehouse_id : Int
deriving DecidableEq, Repr

/-- Well-formedness of an inventory row: 0 ≤ reserved ≤ quantity. -/
def wfInventory (r : Inventory) : Prop :=
  0 ≤ r.reserved ∧ r.reserved ≤ r.quantity

instance (r : Inventory) : Decidable (wfInventory r) := by
  unfold wfInventory; infer_instance

/-! ## Inventory ledger, modelled from the spec (sections 4.1 and 4.2).
The ledger itself is backend code that is not under src/; only its type
declarations and callers are. -/

/-- Business error taxonomy from spec section 7. -/
inductive LedgerError where
  | InsufficientStock
  | VersionConflict
  | InvalidTransition
  | LocationOccupied
  | ContainerAlreadyBound
  | LocationBoundToContainer
  | NoOpMove
deriving DecidableEq, Repr

/-- Modelled from the spec: ledger adjust (section 4.1). Missing from src/:
the backend adjust endpoint. Fails with InsufficientStock if the delta would
drive quantity below 0 or below currently reserved; a successful adjustment
increments version by exactly 1. -/
def adjust (r : Inventory) (delta : Int) : Except LedgerError Inventory :=
  if r.quantity + delta < 0 ∨ r.quantity + delta < r.reserved then
    .error .InsufficientStock
  else
    .ok { r with quantity := r.quantity + delta, version := r.version + 1 }

/-- Modelled from the spec: outbound reserve (section 4.2). Missing from
src/: the backend reserve endpoint. Increases reserved by the requested
quantity; fails with InsufficientStock if available (quantity - reserved) is
less than requested, unless the force flag is supplied, in which case the
reservation is capped at the available quantity. -/
def reserveStock (r : Inventory) (qty : Int) (force : Bool) :
    Except LedgerError Inventory :=
  let available := r.quantity - r.reserved
  if available < qty then
    if force then
      .ok { r with reserved := r.reserved + available, version := r.version + 1 }
    else
      .error .InsufficientStock
  else
    .ok { r with reserved := r.reserved + qty, version := r.version + 1 }

/-- Modelled from the spec: the source-location half of outbound pick
(section 4.2 and the section 8 scenario). Missing from src/: the backend
pick endpoint. Decreases reserved by the picked amount and moves the same
amount of quantity out of the source location. -/
def pickSourceStock (r : Inventory) (amt : Int) : Inventory :=
  { r with quantity := r.quantity - amt, reserved := r.reserved - amt,
           version := r.version + 1 }

/-- Modelled from the spec: the staging-location half of outbound pick
(section 4.2). Missing from src/: the backend pick endpoint. Increases
quantity at the staging location by the picked amount. -/
def pickStagingStock (r : Inventory) (amt : Int) : Inventory :=
  { r with quantity := r.quantity + amt, version := r.version + 1 }

/-- Modelled from the spec: outbound ship (section 4.2). Missing from src/:
the backend ship endpoint. Decreases quantity at the staging location by the
packed amount, through the guarded ledger adjustment. -/
def shipStock (r : Inventory) (amt : Int) : Except LedgerError Inventory :=
  adjust r (-amt)

/-- Modelled from the spec: inbound receive (section 4.2). Missing from
src/: the backend receive endpoint. Increases ledger quantity at the target
location by the line quantity. -/
def receiveStock (r : Inventory) (qty : Int) : Except LedgerError Inventory :=
  adjust r qty

/-- One observable (post-transaction) ledger mutation of a single inventory
row. The side conditions record the discipline of the order state machine
(spec section 4.2): line quantities are non-negative, and pick moves exactly
an amount that was previously reserved on the row. -/
inductive LedgerStep : Inventory → Inventory → Prop where
  | adjust (r r' : Inventory) (delta : Int) :
      adjust r delta = .ok r' → LedgerStep r r'
  | reserve (r r' : Inventory) (qty : Int) (force : Bool) :
      0 ≤ qty → reserveStock r qty force = .ok r' → LedgerStep r r'
  | pickSource (r : Inventory) (amt : Int) :
      0 ≤ amt → amt ≤ r.reserved → LedgerStep r (pickSourceStock r amt)
  | pickStaging (r : Inventory) (amt : Int) :
      0 ≤ amt → LedgerStep r (pickStagingStock r amt)
  | ship (r r' : Inventory) (amt : Int) :
      shipStock r amt = .ok r' → LedgerStep r r'
  | receive (r r' : Inventory) (qty : Int) :
      receiveStock r qty = .ok r' → LedgerStep r r'

/-- Reachability of a row state through any finite sequence of observable
ledger mutations. -/
def LedgerReachable : Inventory → Inventory → Prop :=
  Relation.ReflTransGen LedgerStep

/-! ## Idempotency key cache (from src/unnamed/part_000) -/

/-- Request signature as computed by buildIdempotencyKey: method, path and
the body when the body is a string (otherwise the empty string), joined with
colons. -/
def mkSignature (method path : String) (body : Option String) : String :=
  method ++ ":" ++ path ++ ":" ++ body.getD ""

/-- Entry of the client idempotency cache: the minted key and the timestamp
at which it was minted. -/
structure CacheEntry where
  key : String
  ts : Int
deriving DecidableEq, Repr

/-- The client idempotency cache, keyed by signature string. -/
def IdempotencyCache : Type := String → Option CacheEntry

/-- Key minted for a fresh cache entry: Date.now() concatenated with a
random suffix. -/
def mkFreshKey (now : Int) (rand : String) : String :=
  toString now ++ "-" ++ rand

/-- The buildIdempotencyKey function: returns the cached key when the entry
for this signature was minted less than 5000 ms ago, otherwise mints a fresh
key and stores it for this signature. Nondeterminism of Date.now and
Math.random is made explicit through the now and rand parameters. -/
def buildIdempotencyKey (method path : String) (body : Option String)
    (now : Int) (rand : String) (cache : IdempotencyCache) :
    String × IdempotencyCache :=
  let signature := mkSignature method path body
  match cache signature with
  | some hit =>
      if now - hit.ts < 5000 then
        (hit.key, cache)
      else
        let key := mkFreshKey now rand
        (key, fun s => if s = signature then some ⟨key, now⟩ else cache s)
  | none =>
      let key := mkFreshKey now rand
      (key, fun s => if s = signature then some ⟨key, now⟩ else cache s)

/-! ## Shared request helper (from src/unnamed/part_000) -/

/-- JavaScript toUpperCase over the ASCII method names used by the api
object: uppercase every character. -/
def jsToUpper (s : String) : String := String.mk (s.data.map Char.toUpper)

/-- JavaScript toLowerCase: lowercase every character. -/
def jsToLower (s : String) : String := String.mk (s.data.map Char.toLower)

/-- JavaScript trim: drop whitespace from both ends. -/
def jsTrim (s : String) : String :=
  String.mk
    (((s.data.dropWhile Char.isWhitespace).reverse.dropWhile
        Char.isWhitespace).reverse)

/-- JavaScript or-with-default over an optional string, where the empty
string is falsy: options.method or GET. -/
def jsOrStr (v : Option String) (dflt : String) : String :=
  match v with
  | some s => if s = "" then dflt else s
  | none => dflt

/-- Options passed to the request helper by the api object: method, body and
headers, all optional. -/
structure RequestOptions where
  method : Option String := none
  body : Option String := none
  headers : Option (List (String × String)) := none

/-- The expression options.body or null: a falsy body (absent or the empty
string) becomes null. -/
def jsBodyArg (body : Option String) : Option String :=
  match body with
  | some s => if s = "" then none else some s
  | none => none

/-- Object spread of override into base: keys of base survive unless the
override carries the same key. -/
def mergeHeaders (base override : List (String × String)) :
    List (String × String) :=
  base.filter (fun p => !(override.any (fun q => q.1 == p.1))) ++ override

/-- Headers of the fetch call made by the request helper. The base headers
are Content-Type and X-Request-Source, an Authorization header is added for
a truthy token, and an Idempotency-Key header is added when the uppercased
method (defaulting to GET) is not GET. The final spread of options into the
fetch init replaces the merged headers entirely whenever options carries its
own headers object. -/
def requestHeaders (path : String) (opts : RequestOptions)
    (token : Option String) (now : Int) (rand : String)
    (cache : IdempotencyCache) : List (String × String) :=
  let method := jsToUpper (jsOrStr opts.method "GET")
  let base := [("Content-Type", "application/json"),
               ("X-Request-Source", "wms-web")]
  let withAuth := base ++
    (match token with
     | some t => if t = "" then [] else [("Authorization", "Bearer " ++ t)]
     | none => [])
  let withKey := withAuth ++
    (if method ≠ "GET" then
      [("Idempotency-Key",
        (buildIdempotencyKey method path (jsBodyArg opts.body) now rand
          cache).1)]
     else [])
  match opts.headers with
  | some hs => hs
  | none => mergeHeaders withKey []

/-- Presence of a header name in a header list. -/
def hasHeader (hs : List (String × String)) (name : String) : Bool :=
  hs.any (fun p => p.1 == name)

/-! ## Client API calls (from src/unnamed/part_000 and src/frontend/src/api.ts) -/

/-- JavaScript truthiness of a number: falsy exactly at 0. -/
def jsTruthyInt (n : Int) : Bool := n != 0

/-- Force flag value sent by the client in the reserve body, from
api.reserveOutbound: JSON.stringify with force set to 0. -/
def reserveForceValue : Int := 0

/-- JSON body produced by JSON.stringify for the reserve request. -/
def reserveOutboundBody : String :=
  "\x7b\"force\":" ++ toString reserveForceValue ++ "\x7d"

/-- One HTTP call as issued by the client api object. -/
structure ApiCall where
  method : String
  path : String
  body : Option String
deriving DecidableEq, Repr

/-- Client reserve call, from api.reserveOutbound. -/
def reserveOutbound (id : Int) : ApiCall :=
  { method := "POST"
    path := "/outbounds/" ++ toString id ++ "/reserve"
    body := some reserveOutboundBody }

/-! ## Fulfillment UI transition buttons
(from src/frontend/src/pages/Outbound.tsx and the inbound page in
src/unnamed/part_005) -/

/-- Disabled attribute of the outbound reserve button:
disabled when o.status is not CREATED. -/
def outboundReserveDisabled (status : String) : Bool := status != "CREATED"

/-- Disabled attribute of the outbound pick button:
disabled when o.status is not RESERVED. -/
def outboundPickDisabled (status : String) : Bool := status != "RESERVED"

/-- Disabled attribute of the outbound pack button:
disabled when o.status is not PICKED. -/
def outboundPackDisabled (status : String) : Bool := status != "PICKED"

/-- Disabled attribute of the outbound ship button:
disabled when o.status is not PACKED. -/
def outboundShipDisabled (status : String) : Bool := status != "PACKED"

/-- Disabled attribute of the inbound receive button:
disabled when o.status is not CREATED. -/
def inboundReceiveDisabled (status : String) : Bool := status != "CREATED"

/-- A button click issues its onClick request only when the button is not
disabled; a disabled HTML button fires no click handler. -/
def clickIssuesRequest (disabled : Bool) (clicked : Bool) : Bool :=
  clicked && !disabled

/-! ## Storage page container controls (StoragePage, in the concatenated
src/frontend/src/utils/time.ts sources) -/

/-- Container row as the storage page reads it: location_id is a number or
null. -/
structure Container where
  id : Int
  code : String
  location_id : Option Int
deriving DecidableEq, Repr

/-- JavaScript truthiness of c.location_id (number or null): truthy exactly
when present and non-zero. -/
def containerBoundFlag (c : Container) : Bool :=
  match c.location_id with
  | some v => v != 0
  | none => false

/-- Visibility of the bind dropdown: rendered only when the caller can write
containers and c.location_id is falsy. -/
def bindControlShown (canContainersWrite : Bool) (c : Container) : Bool :=
  canContainersWrite && !(containerBoundFlag c)

/-- Visibility of the move dropdown: rendered only when the caller can write
container moves and c.location_id is truthy. -/
def moveControlShown (canContainerMovesWrite : Bool) (c : Container) : Bool :=
  canContainerMovesWrite && containerBoundFlag c

/-- Options of the move dropdown: all locations whose id differs (strict
inequality) from c.location_id. -/
def moveOptions (c : Container) (locations : List Location) : List Location :=
  locations.filter (fun l => (some l.id : Option Int) != c.location_id)

/-- A bind request is issued only when the bind dropdown is rendered and the
chosen option value is truthy (the placeholder 0 returns early). -/
def bindRequestIssued (canContainersWrite : Bool) (c : Container)
    (chosen : Int) : Bool :=
  bindControlShown canContainersWrite c && chosen != 0

/-- A move request is issued only when the move dropdown is rendered, the
chosen value is truthy, and the chosen value is one of the dropdown
options. -/
def moveRequestIssued (canContainerMovesWrite : Bool) (c : Container)
    (locations : List Location) (chosen : Int) : Bool :=
  moveControlShown canContainerMovesWrite c && chosen != 0 &&
    (moveOptions c locations).any (fun l => l.id == chosen)



/-! ## Outbound creation and pick staging fallback
(from src/frontend/src/pages/Outbound.tsx) -/

/-- JavaScript or over numbers: the left operand unless it is falsy (0). -/
def jsOrInt (a b : Int) : Int := if a = 0 then b else a

/-- The expression loc?.id in a JavaScript or-chain: the id when the
optional lookup produced a location, otherwise the falsy undefined,
represented by 0 (a 0 id is equally falsy). -/
def optLocId (l : Option Location) : Int :=
  match l with
  | some x => x.id
  | none => 0

/-- The defaultStagingId constant of OutboundPage: the staging location
currently selected in the create form, else the location coded STAGE, else
the first known location, else 0. -/
def defaultStagingId (formStaging : Int) (locations : List Location) : Int :=
  jsOrInt formStaging
    (jsOrInt (optLocId (locations.find? (fun l => l.code == "STAGE")))
      (jsOrInt (optLocId locations.head?) 0))

/-- Staging argument of the pick request sent by OutboundPage:
o.target_location_id when present (nullish coalescing), else
defaultStagingId. -/
def pickStagingArg (target : Option Int) (formStaging : Int)
    (locations : List Location) : Int :=
  match target with
  | some t => t
  | none => defaultStagingId formStaging locations

/-- Fallback chain in the wording of the claim, for comparison with the
code: the order target, else a location coded STAGE, else the first known
location. -/
def claimedPickStagingArg (target : Option Int) (locations : List Location) :
    Int :=
  match target with
  | some t => t
  | none =>
      jsOrInt (optLocId (locations.find? (fun l => l.code == "STAGE")))
        (jsOrInt (optLocId locations.head?) 0)

/-- Modelled from the spec: createOutbound validation (section 4.2, pick
rules validated at order creation). Missing from src/: the backend
createOutbound endpoint. An outbound order is accepted at creation only if
its source location differs from its staging location. -/
def createOutboundAccepts (sourceLocationId stagingLocationId : Int) : Bool :=
  sourceLocationId != stagingLocationId

/-! ## formatDateTime (from src/frontend/src/utils/time.ts) -/

/-- First arm of the normalization regex of formatDateTime: a z or Z
character anywhere in the value (the character class is not anchored). -/
def containsZChar (s : String) : Bool :=
  s.data.any (fun c => c == 'z' || c == 'Z')

/-- Second arm of the normalization regex: the value ends with a UTC offset
sign, two digits, a colon and two digits. -/
def endsWithUtcOffset (s : String) : Bool :=
  match s.data.reverse with
  | d1 :: d2 :: c :: d3 :: d4 :: sign :: _ =>
      d1.isDigit && d2.isDigit && c == ':' && d3.isDigit && d4.isDigit &&
        (sign == '+' || sign == '-')
  | _ => false

/-- The regex test of formatDateTime: a z or Z anywhere, or a trailing UTC
offset. -/
def hasTzDesignator (s : String) : Bool :=
  containsZChar s || endsWithUtcOffset s

/-- Normalization performed by formatDateTime before parsing: append Z
unless the regex matches. -/
def normalizeTimestamp (s : String) : String :=
  if hasTzDesignator s then s else s ++ "Z"

/-- Normalization as worded by the claim, for comparison with the code:
append Z unless the value has a trailing timezone designator, a final Z or a
trailing UTC offset. -/
def claimNormalizeTimestamp (s : String) : String :=
  if s.data.reverse.head? == some 'Z' || endsWithUtcOffset s then s
  else s ++ "Z"

/-- The formatDateTime function, with the host environment date parser and
formatter abstracted: parse stands for new Date(...).getTime() with NaN as
none, fmt for toLocaleString with the zh-CN locale, the Asia/Shanghai zone
and a 24-hour clock. A falsy value (null, undefined or the empty string)
gives a dash, an unparseable value is returned unchanged, and a parseable
value is formatted after normalization. -/
def formatDateTime (parse : String → Option Int) (fmt : Int → String)
    (value : Option String) : String :=
  match value with
  | none => "-"
  | some s =>
      if s = "" then "-"
      else
        match parse (normalizeTimestamp s) with
        | none => s
        | some t => fmt t

/-! ## Data refresh layer (from src/unnamed/part_007, useWmsData) -/

/-- Material row as declared in the frontend data layer. -/
structure Material where
  id : Int
  sku : String
  name : String
  unit : String
  category : String
  is_common : Int
  is_active : Int
deriving DecidableEq, Repr

/-- Order row as declared in the frontend data layer. -/
structure Order where
  id : Int
  order_no : String
  order_type : String
  status : String
  partner : Option String
  source_location_id : Option Int
  target_location_id : Option Int
deriving DecidableEq, Repr

/-- Stock move row as declared in the frontend data layer. -/
structure StockMove where
  id : Int
  material_id : Int
  qty : Int
  move_type : String
  from_location_id : Option Int
  to_location_id : Option Int
deriving DecidableEq, Repr

/-- Data the server would return for each list endpoint. -/
structure ServerData where
  materials : List Material
  locations : List Location
  inventory : List Inventory
  orders : List Order
  stockMoves : List StockMove

/-- Domain states held by useWmsData after refreshAll. -/
structure ClientState where
  materials : List Material
  locations : List Location
  inventory : List Inventory
  orders : List Order
  stockMoves : List StockMove

/-- The refreshAll function: each list request is pushed only under its read
permission (an empty resolved list otherwise), and each domain state is set
from the response only under the same permission, the empty list
otherwise. -/
def refreshAll (permissions : List String) (server : ServerData) :
    ClientState :=
  let canMaterials := permissions.contains "materials.read"
  let canInventory := permissions.contains "inventory.read"
  let canOrders := permissions.contains "orders.read"
  let canStockMoves := permissions.contains "stock_moves.read"
  let m := if canMaterials then server.materials else []
  let l := if canMaterials then server.locations else []
  let i := if canInventory then server.inventory else []
  let o := if canOrders then server.orders else []
  let sm := if canStockMoves then server.stockMoves else []
  { materials := if canMaterials then m else []
    locations := if canMaterials then l else []
    inventory := if canInventory then i else []
    orders := if canOrders then o else []
    stockMoves := if canStockMoves then sm else [] }

/-- The list requests issued by refreshAll: one per domain, and only when
the matching read permission is present. -/
def refreshRequests (permissions : List String) : List String :=
  (if permissions.contains "materials.read" then ["GET /materials"] else []) ++
  (if permissions.contains "materials.read" then ["GET /locations"] else []) ++
  (if permissions.contains "inventory.read" then ["GET /inventory"] else []) ++
  (if permissions.contains "orders.read" then ["GET /orders"] else []) ++
  (if permissions.contains "stock_moves.read" then ["GET /stock_moves"]
   else [])

/-! ## Table hook (from src/frontend/src/hooks/useTable.ts and the variant
in src/unnamed/part_007; the paging arithmetic is identical in both) -/

/-- Filtered rows of useTable: the rows unchanged when the trimmed
lowercased query is empty, otherwise the rows passing the filter predicate
applied with the trimmed lowercased query. -/
def filteredRows {α : Type} (rows : List α) (flt : α → String → Bool)
    (query : String) : List α :=
  let q := jsToLower (jsTrim query)
  if q = "" then rows else rows.filter (fun row => flt row q)

/-- Page count of useTable: Math.max(1, Math.ceil(length / pageSize)),
with ceiling division written for natural numbers. -/
def pageCountOf (filteredLength pageSize : Nat) : Nat :=
  max 1 ((filteredLength + pageSize - 1) / pageSize)

/-- Current page of useTable: Math.min(page, pageCount). -/
def currentPageOf (page pageCount : Nat) : Nat := min page pageCount

/-- Page items of useTable: filtered.slice(start, start + pageSize) with
start = (currentPage - 1) * pageSize. -/
def pageItemsOf {α : Type} (filtered : List α) (page pageSize : Nat) :
    List α :=
  let pc := pageCountOf filtered.length pageSize
  let cur := currentPageOf page pc
  let start := (cur - 1) * pageSize
  (filtered.drop start).take pageSize

/-- The setPage clamp of useTable: Math.max(1, value). -/
def setPageClamped (value : Nat) : Nat := max 1 value

/-- The next handler of useTable: setPage(Math.min(currentPage + 1,
pageCount)). -/
def nextPage (currentPage pageCount : Nat) : Nat :=
  setPageClamped (min (currentPage + 1) pageCount)

/-- The prev handler of useTable: setPage(Math.max(currentPage - 1, 1)). -/
def prevPage (currentPage : Nat) : Nat :=
  setPageClamped (max (currentPage - 1) 1)

end Wms

namespace Wms

/-! ## Claim theorems -/

/-- Helper: every single ledger mutation preserves well-formedness. -/
theorem ledgerStep_preserves_wf {r r' : Inventory}
    (hwf : wfInventory r) (hstep : LedgerStep r r') : wfInventory r' := by
  obtain ⟨h0, h1⟩ := hwf
  cases hstep with
  | adjust r' delta h =>
      unfold adjust at h
      split at h
      · exact absurd h (by simp)
      · rename_i hc
        push_neg at hc
        cases h
        exact ⟨h0, hc.2⟩
  | reserve r' qty force hq h =>
      unfold reserveStock at h
      simp only at h
      cases force with
      | true =>
          split at h <;>
            (rename_i hc
             simp only [Except.ok.injEq] at h
             cases h
             constructor <;> simp <;> omega)
      | false =>
          split at h
          · exact absurd h (by simp)
          · rename_i hc
            push_neg at hc
            simp only [Except.ok.injEq] at h
            cases h
            constructor <;> simp <;> omega
  | pickSource amt h0a h1a =>
      unfold pickSourceStock
      constructor <;> simp <;> omega
  | pickStaging amt ha =>
      unfold pickStagingStock
      constructor <;> simp <;> omega
  | ship r' amt h =>
      unfold shipStock adjust at h
      split at h
      · exact absurd h (by simp)
      · rename_i hc
        push_neg at hc
        cases h
        exact ⟨h0, hc.2⟩
  | receive r' qty h =>
      unfold receiveStock adjust at h
      split at h
      · exact absurd h (by simp)
      · rename_i hc
        push_neg at hc
        cases h
        exact ⟨h0, hc.2⟩

/-- C1: for every inventory row, at every observable time outside a
transaction, 0 ≤ reserved ≤ quantity holds for the reserved and quantity
counters. Formally: every row reachable from a well-formed row through any
finite sequence of post-transaction ledger mutations is well-formed. -/
theorem inventory_reserved_bounds (r0 r : Inventory)
    (hwf : wfInventory r0) (hr : LedgerReachable r0 r) :
    0 ≤ r.reserved ∧ r.reserved ≤ r.quantity := by
  induction hr with
  | refl => exact hwf
  | tail _ hstep ih => exact ledgerStep_preserves_wf ih hstep

/-- Witness for C1: a concrete well-formed row stays well-formed after a
concrete ledger adjustment. -/
theorem inventory_reserved_bounds_witness :
    0 ≤ (Inventory.mk 1 1 1 5 0 1).reserved ∧
      (Inventory.mk 1 1 1 5 0 1).reserved ≤ (Inventory.mk 1 1 1 5 0 1).quantity :=
  inventory_reserved_bounds (Inventory.mk 1 1 1 0 0 0) (Inventory.mk 1 1 1 5 0 1)
    (by constructor <;> decide)
    (Relation.ReflTransGen.single
      (LedgerStep.adjust (Inventory.mk 1 1 1 0 0 0) (Inventory.mk 1 1 1 5 0 1) 5 rfl))

/-- C5: the reserve request sent by the client carries exactly the body with
force set to 0; since that flag is falsy, a reservation whose requested
quantity exceeds available stock is rejected with InsufficientStock rather
than capped at the available quantity. -/
theorem reserveOutbound_force_zero (id : Int) (r : Inventory) (qty : Int)
    (hinsuf : r.quantity - r.reserved < qty) :
    (reserveOutbound id).body = some "\x7b\"force\":0\x7d" ∧
    jsTruthyInt reserveForceValue = false ∧
    reserveStock r qty (jsTruthyInt reserveForceValue) =
      .error .InsufficientStock := by
  refine ⟨rfl, rfl, ?_⟩
  simp [reserveStock, jsTruthyInt, reserveForceValue, hinsuf]

/-- C2: the fulfillment UI issues a transition request only from the exact
predecessor state of the transition (receive from CREATED; reserve, pick,
pack, ship from CREATED, RESERVED, PICKED, PACKED respectively); in any
other state the corresponding button is disabled and a click issues no
request. -/
theorem transition_buttons_exact_predecessor (status : String) (clicked : Bool) :
    (clickIssuesRequest (inboundReceiveDisabled status) clicked = true →
        status = "CREATED") ∧
    (clickIssuesRequest (outboundReserveDisabled status) clicked = true →
        status = "CREATED") ∧
    (clickIssuesRequest (outboundPickDisabled status) clicked = true →
        status = "RESERVED") ∧
    (clickIssuesRequest (outboundPackDisabled status) clicked = true →
        status = "PICKED") ∧
    (clickIssuesRequest (outboundShipDisabled status) clicked = true →
        status = "PACKED") ∧
    (status ≠ "CREATED" →
        inboundReceiveDisabled status = true ∧
        outboundReserveDisabled status = true ∧
        clickIssuesRequest (inboundReceiveDisabled status) clicked = false ∧
        clickIssuesRequest (outboundReserveDisabled status) clicked = false) ∧
    (status ≠ "RESERVED" →
        outboundPickDisabled status = true ∧
        clickIssuesRequest (outboundPickDisabled status) clicked = false) ∧
    (status ≠ "PICKED" →
        outboundPackDisabled status = true ∧
        clickIssuesRequest (outboundPackDisabled status) clicked = false) ∧
    (status ≠ "PACKED" →
        outboundShipDisabled status = true ∧
        clickIssuesRequest (outboundShipDisabled status) clicked = false) := by
  simp [clickIssuesRequest, inboundReceiveDisabled, outboundReserveDisabled,
        outboundPickDisabled, outboundPackDisabled, outboundShipDisabled,
        bne, and_assoc]
  aesop

/-- Witness for C2: in state RESERVED, the pick button is the only enabled
transition button and a click on it issues the pick request. -/
theorem transition_buttons_exact_predecessor_witness :
    clickIssuesRequest (outboundPickDisabled "RESERVED") true = true ∧
    clickIssuesRequest (outboundReserveDisabled "RESERVED") true = false ∧
    clickIssuesRequest (outboundShipDisabled "RESERVED") true = false :=
  ⟨by decide,
   ((transition_buttons_exact_predecessor "RESERVED" true).2.2.2.2.2.1
        (by decide)).2.2.1,
   (((transition_buttons_exact_predecessor "RESERVED" true).2.2.2.2.2.2.2.2)
        (by decide)).2⟩

/-- C7: the bind control is offered only for containers with no bound
location, the move control only for bound ones, the move dropdown never
contains the currently bound location, and hence the client never issues a
bind request for an already-bound container nor a container move whose
destination equals the current location. -/
theorem container_controls_gating (canW canMW : Bool) (c : Container)
    (locs : List Location) (chosen : Int) :
    (bindControlShown canW c = true → containerBoundFlag c = false) ∧
    (moveControlShown canMW c = true → containerBoundFlag c = true) ∧
    (∀ l ∈ moveOptions c locs, (some l.id : Option Int) ≠ c.location_id) ∧
    (bindRequestIssued canW c chosen = true → containerBoundFlag c = false) ∧
    (moveRequestIssued canMW c locs chosen = true →
        c.location_id ≠ some chosen) := by
  refine ⟨?_, ?_, ?_, ?_, ?_⟩
  · intro h
    simp only [bindControlShown, Bool.and_eq_true, Bool.not_eq_true'] at h
    exact h.2
  · intro h
    simp only [moveControlShown, Bool.and_eq_true] at h
    exact h.2
  · intro l hl
    simp only [moveOptions, List.mem_filter, bne_iff_ne, ne_eq] at hl
    exact hl.2
  · intro h
    simp only [bindRequestIssued, bindControlShown, Bool.and_eq_true,
      Bool.not_eq_true'] at h
    exact h.1.2
  · intro h
    simp only [moveRequestIssued, moveControlShown, moveOptions,
      Bool.and_eq_true, List.any_eq_true, List.mem_filter, bne_iff_ne,
      beq_iff_eq, ne_eq] at h
    obtain ⟨⟨⟨hcan, hflag⟩, hch⟩, l, ⟨hmem, hne⟩, hid⟩ := h
    intro hc
    exact hne (by rw [hid]; exact hc.symm)

/-- Witness for C7: a concrete unbound container shown a bind control, and a
concrete bound container whose issued move cannot target its current
location. -/
theorem container_controls_gating_witness :
    containerBoundFlag (Container.mk 1 "C1" none) = false ∧
    (Container.mk 2 "C2" (some 4)).location_id ≠ some 5 :=
  ⟨(container_controls_gating true true (Container.mk 1 "C1" none) [] 0).1
      (by decide),
   (container_controls_gating true true (Container.mk 2 "C2" (some 4))
      [Location.mk 4 "L4" "L4" 1, Location.mk 5 "L5" "L5" 1] 5).2.2.2.2
      (by decide)⟩

/-- C3 counterexample: two calls whose request signatures differ as
(method, path, body) triples can still share a cache entry, because the
signature string joins the components with colons and a colon inside the
path (or method) makes distinct triples concatenate to the same string. The
second call, made 1 ms after the first minted its key, returns the key of
the first call instead of a freshly generated one. -/
theorem idempotency_distinct_triples_share_entry :
    ((("A" : String), ("B:C" : String), (none : Option String)) ≠
        ("A:B", "C", none)) ∧
    (buildIdempotencyKey "A:B" "C" none 1 "r2"
        (buildIdempotencyKey "A" "B:C" none 0 "r1" (fun _ => none)).2).1 =
      (buildIdempotencyKey "A" "B:C" none 0 "r1" (fun _ => none)).1 ∧
    (buildIdempotencyKey "A:B" "C" none 1 "r2"
        (buildIdempotencyKey "A" "B:C" none 0 "r1" (fun _ => none)).2).1 ≠
      mkFreshKey 1 "r2" := by
  refine ⟨by decide, by decide, by decide⟩

/-- Helper: a call that hits a live cache entry returns its key and leaves
the cache unchanged. -/
theorem buildIdempotencyKey_hit (method path : String) (body : Option String)
    (now : Int) (rand : String) (cache : IdempotencyCache) (e : CacheEntry)
    (he : cache (mkSignature method path body) = some e)
    (hlt : now - e.ts < 5000) :
    buildIdempotencyKey method path body now rand cache = (e.key, cache) := by
  simp [buildIdempotencyKey, he, hlt]

/-- Helper: a call that finds no live cache entry mints a fresh key and
stores it for its signature with the current timestamp. -/
theorem buildIdempotencyKey_mint (method path : String) (body : Option String)
    (now : Int) (rand : String) (cache : IdempotencyCache)
    (h : cache (mkSignature method path body) = none ∨
      ∃ e, cache (mkSignature method path body) = some e ∧ 5000 ≤ now - e.ts) :
    buildIdempotencyKey method path body now rand cache =
      (mkFreshKey now rand,
        fun s => if s = mkSignature method path body then
          some ⟨mkFreshKey now rand, now⟩ else cache s) := by
  rcases h with h | ⟨e, he, hexp⟩
  · simp [buildIdempotencyKey, h]
  · simp only [buildIdempotencyKey, he]
    rw [if_neg (by omega)]

/-- C3 (amended): for every fixed signature string, a call that mints a key
(no live cache entry for the signature) stores it with the minting
timestamp; a second call with the same signature less than 5000 ms after the
minting call returns the identical key; a call 5000 ms or more after the
minting call returns a freshly generated key; and a call never reads or
writes the cache entry of a different signature string. -/
theorem buildIdempotencyKey_window (method path : String) (body : Option String)
    (t1 t2 : Int) (r1 r2 : String) (cache : IdempotencyCache)
    (hmint : cache (mkSignature method path body) = none ∨
      ∃ e, cache (mkSignature method path body) = some e ∧ 5000 ≤ t1 - e.ts) :
    ((buildIdempotencyKey method path body t1 r1 cache).1 = mkFreshKey t1 r1) ∧
    ((buildIdempotencyKey method path body t1 r1 cache).2
        (mkSignature method path body) = some ⟨mkFreshKey t1 r1, t1⟩) ∧
    (t2 - t1 < 5000 →
      (buildIdempotencyKey method path body t2 r2
          (buildIdempotencyKey method path body t1 r1 cache).2).1 =
        (buildIdempotencyKey method path body t1 r1 cache).1) ∧
    (5000 ≤ t2 - t1 →
      (buildIdempotencyKey method path body t2 r2
          (buildIdempotencyKey method path body t1 r1 cache).2).1 =
        mkFreshKey t2 r2) ∧
    (∀ s, s ≠ mkSignature method path body →
      (buildIdempotencyKey method path body t1 r1 cache).2 s = cache s) := by
  have h1 := buildIdempotencyKey_mint method path body t1 r1 cache hmint
  have hlook : (buildIdempotencyKey method path body t1 r1 cache).2
      (mkSignature method path body) =
      some ⟨mkFreshKey t1 r1, t1⟩ := by
    rw [h1]
    simp
  refine ⟨by rw [h1], hlook, ?_, ?_, ?_⟩
  · intro hlt
    have h2 := buildIdempotencyKey_hit method path body t2 r2
      (buildIdempotencyKey method path body t1 r1 cache).2
      ⟨mkFreshKey t1 r1, t1⟩ hlook (by simpa using hlt)
    rw [h2, h1]
  · intro hge
    have h2 := buildIdempotencyKey_mint method path body t2 r2
      (buildIdempotencyKey method path body t1 r1 cache).2
      (Or.inr ⟨⟨mkFreshKey t1 r1, t1⟩, hlook, by simpa using hge⟩)
    rw [h2]
  · intro s hs
    rw [h1]
    simp [hs]

/-- Witness for C3: a concrete signature, minted at time 0, is reused by a
call at 4999 ms and replaced by a fresh key at 5000 ms. -/
theorem buildIdempotencyKey_window_witness :
    (buildIdempotencyKey "POST" "/o" (some "b") 4999 "bb"
        (buildIdempotencyKey "POST" "/o" (some "b") 0 "aa" (fun _ => none)).2).1 =
      (buildIdempotencyKey "POST" "/o" (some "b") 0 "aa" (fun _ => none)).1 ∧
    (buildIdempotencyKey "POST" "/o" (some "b") 5000 "cc"
        (buildIdempotencyKey "POST" "/o" (some "b") 0 "aa" (fun _ => none)).2).1 =
      mkFreshKey 5000 "cc" :=
  ⟨(buildIdempotencyKey_window "POST" "/o" (some "b") 0 4999 "aa" "bb"
      (fun _ => none) (Or.inl rfl)).2.2.1 (by decide),
   (buildIdempotencyKey_window "POST" "/o" (some "b") 0 5000 "aa" "cc"
      (fun _ => none) (Or.inl rfl)).2.2.2.1 (by decide)⟩

/-- C4: a request issued through the shared request helper carries an
Idempotency-Key header if and only if the uppercased method (defaulting to
GET when unspecified) is not GET. Every call site of the helper passes no
headers object of its own, which the hypothesis records. -/
theorem request_idempotency_header_iff (path : String) (opts : RequestOptions)
    (token : Option String) (now : Int) (rand : String)
    (cache : IdempotencyCache) (hnone : opts.headers = none) :
    (hasHeader (requestHeaders path opts token now rand cache)
        "Idempotency-Key" = true) ↔
      jsToUpper (jsOrStr opts.method "GET") ≠ "GET" := by
  unfold requestHeaders hasHeader mergeHeaders
  rw [hnone]
  by_cases hm : jsToUpper (jsOrStr opts.method "GET") = "GET"
  · simp only [hm]
    cases token with
    | none => simp
    | some t =>
        by_cases ht : t = "" <;> simp [ht]
  · simp only [hm]
    cases token with
    | none => simp [hm]
    | some t =>
        by_cases ht : t = "" <;> simp [ht, hm]

/-- Witness for C4: a POST request carries the header, a request with no
method does not. -/
theorem request_idempotency_header_iff_witness :
    hasHeader (requestHeaders "/o" ⟨some "POST", some "b", none⟩ none 0 "aa"
        (fun _ => none)) "Idempotency-Key" = true ∧
    hasHeader (requestHeaders "/orders" ⟨none, none, none⟩ none 0 "aa"
        (fun _ => none)) "Idempotency-Key" = false := by
  constructor
  · exact (request_idempotency_header_iff "/o" ⟨some "POST", some "b", none⟩
      none 0 "aa" (fun _ => none) rfl).mpr (by decide)
  · have h := request_idempotency_header_iff "/orders" ⟨none, none, none⟩
      none 0 "aa" (fun _ => none) rfl
    have hng : ¬ (jsToUpper (jsOrStr (none : Option String) "GET") ≠ "GET") := by
      decide
    have h2 := fun hx => hng (h.mp hx)
    simpa using h2

/-- C8: for every row list, filter predicate, positive page size and page
state at least 1, useTable yields pageCount = max(1, ceil(length /
pageSize)) (stated through its characteristic bounds), a current page inside
[1, pageCount], page items equal to the slice of the filtered rows starting
at (currentPage - 1) * pageSize of length at most pageSize, the unchanged
row list when the trimmed query is empty, and next/prev targets inside
[1, pageCount]. -/
theorem useTable_pagination {α : Type} (rows : List α)
    (flt : α → String → Bool) (query : String) (page pageSize : Nat)
    (hps : 0 < pageSize) (hpage : 1 ≤ page) :
    (1 ≤ pageCountOf (filteredRows rows flt query).length pageSize) ∧
    ((filteredRows rows flt query).length ≤
        pageCountOf (filteredRows rows flt query).length pageSize * pageSize) ∧
    (1 < pageCountOf (filteredRows rows flt query).length pageSize →
      (pageCountOf (filteredRows rows flt query).length pageSize - 1) *
          pageSize < (filteredRows rows flt query).length) ∧
    (1 ≤ currentPageOf page
          (pageCountOf (filteredRows rows flt query).length pageSize) ∧
      currentPageOf page
          (pageCountOf (filteredRows rows flt query).length pageSize) ≤
        pageCountOf (filteredRows rows flt query).length pageSize) ∧
    (pageItemsOf (filteredRows rows flt query) page pageSize =
      ((filteredRows rows flt query).drop
        ((currentPageOf page
            (pageCountOf (filteredRows rows flt query).length pageSize) - 1) *
          pageSize)).take pageSize) ∧
    ((pageItemsOf (filteredRows rows flt query) page pageSize).length ≤
        pageSize) ∧
    (jsToLower (jsTrim query) = "" → filteredRows rows flt query = rows) ∧
    (1 ≤ nextPage (currentPageOf page
          (pageCountOf (filteredRows rows flt query).length pageSize))
          (pageCountOf (filteredRows rows flt query).length pageSize) ∧
      nextPage (currentPageOf page
          (pageCountOf (filteredRows rows flt query).length pageSize))
          (pageCountOf (filteredRows rows flt query).length pageSize) ≤
        pageCountOf (filteredRows rows flt query).length pageSize ∧
      1 ≤ prevPage (currentPageOf page
          (pageCountOf (filteredRows rows flt query).length pageSize)) ∧
      prevPage (currentPageOf page
          (pageCountOf (filteredRows rows flt query).length pageSize)) ≤
        pageCountOf (filteredRows rows flt query).length pageSize) := by
  set f := filteredRows rows flt query with hf
  set n := f.length with hn
  have hcd : pageCountOf n pageSize = max 1 (n ⌈/⌉ pageSize) := by
    rw [pageCountOf, Nat.ceilDiv_eq_add_pred_div]
  refine ⟨?_, ?_, ?_, ?_, ?_, ?_, ?_, ?_⟩
  · rw [hcd]; omega
  · rw [hcd]
    have h1 : n ≤ pageSize • (n ⌈/⌉ pageSize) := le_smul_ceilDiv hps
    have h2 : (n ⌈/⌉ pageSize) ≤ max 1 (n ⌈/⌉ pageSize) := le_max_right _ _
    calc n ≤ pageSize * (n ⌈/⌉ pageSize) := h1
      _ ≤ pageSize * max 1 (n ⌈/⌉ pageSize) := Nat.mul_le_mul_left _ h2
      _ = max 1 (n ⌈/⌉ pageSize) * pageSize := Nat.mul_comm _ _
  · intro hgt
    rw [hcd] at hgt ⊢
    have hq : 1 < n ⌈/⌉ pageSize := by omega
    have hmax : max 1 (n ⌈/⌉ pageSize) = n ⌈/⌉ pageSize := by omega
    rw [hmax]
    by_contra hle
    push_neg at hle
    have : n ⌈/⌉ pageSize ≤ n ⌈/⌉ pageSize - 1 := by
      refine (ceilDiv_le_iff_le_mul hps).2 ?_
      calc n ≤ (n ⌈/⌉ pageSize - 1) * pageSize := hle
        _ = pageSize * (n ⌈/⌉ pageSize - 1) := Nat.mul_comm _ _
    omega
  · rw [currentPageOf, hcd]; omega
  · rfl
  · rw [pageItemsOf]
    simp only [List.length_take]
    omega
  · intro hq
    rw [hf, filteredRows]
    simp [hq]
  · simp only [nextPage, prevPage, currentPageOf, setPageClamped, hcd]
    omega

/-- Witness for C8: a concrete table of three rows with page size 2 keeps
the rows unchanged under the empty query and shows a current page inside
bounds. -/
theorem useTable_pagination_witness :
    filteredRows ([1, 2, 3] : List Nat) (fun _ _ => true) "" = [1, 2, 3] ∧
    1 ≤ currentPageOf 1
        (pageCountOf (filteredRows ([1, 2, 3] : List Nat)
          (fun _ _ => true) "").length 2) :=
  ⟨(useTable_pagination ([1, 2, 3] : List Nat) (fun _ _ => true) "" 1 2
      (by decide) (by decide)).2.2.2.2.2.2.1 (by decide),
   (useTable_pagination ([1, 2, 3] : List Nat) (fun _ _ => true) "" 1 2
      (by decide) (by decide)).2.2.2.1.1⟩

/-- C9: after refreshAll, a domain state whose read permission is missing is
the empty list, does not depend on the server data, and its list request is
never issued; materials and locations are both gated by materials.read. -/
theorem refreshAll_permission_gating (perms : List String)
    (s1 s2 : ServerData) :
    (perms.contains "materials.read" = false →
      (refreshAll perms s1).materials = [] ∧
      (refreshAll perms s1).locations = [] ∧
      (refreshAll perms s1).materials = (refreshAll perms s2).materials ∧
      (refreshAll perms s1).locations = (refreshAll perms s2).locations ∧
      "GET /materials" ∉ refreshRequests perms ∧
      "GET /locations" ∉ refreshRequests perms) ∧
    (perms.contains "inventory.read" = false →
      (refreshAll perms s1).inventory = [] ∧
      (refreshAll perms s1).inventory = (refreshAll perms s2).inventory ∧
      "GET /inventory" ∉ refreshRequests perms) ∧
    (perms.contains "orders.read" = false →
      (refreshAll perms s1).orders = [] ∧
      (refreshAll perms s1).orders = (refreshAll perms s2).orders ∧
      "GET /orders" ∉ refreshRequests perms) ∧
    (perms.contains "stock_moves.read" = false →
      (refreshAll perms s1).stockMoves = [] ∧
      (refreshAll perms s1).stockMoves = (refreshAll perms s2).stockMoves ∧
      "GET /stock_moves" ∉ refreshRequests perms) := by
  refine ⟨?_, ?_, ?_, ?_⟩ <;>
    (intro h
     by_cases h1 : perms.contains "materials.read" = true <;>
     by_cases h2 : perms.contains "inventory.read" = true <;>
     by_cases h3 : perms.contains "orders.read" = true <;>
     by_cases h4 : perms.contains "stock_moves.read" = true <;>
       simp_all [refreshAll, refreshRequests])

/-- Witness for C9: with no permissions at all, the inventory state is empty
and no inventory request is issued. -/
theorem refreshAll_permission_gating_witness :
    (refreshAll [] (ServerData.mk [] []
        [Inventory.mk 1 1 1 9 0 0] [] [])).inventory = [] ∧
    "GET /inventory" ∉ refreshRequests [] :=
  ⟨((refreshAll_permission_gating []
      (ServerData.mk [] [] [Inventory.mk 1 1 1 9 0 0] [] [])
      (ServerData.mk [] [] [] [] [])).2.1 (by decide)).1,
   ((refreshAll_permission_gating []
      (ServerData.mk [] [] [Inventory.mk 1 1 1 9 0 0] [] [])
      (ServerData.mk [] [] [] [] [])).2.1 (by decide)).2.2⟩

/-- C6 counterexample: at pick time, with the create form holding a staging
selection of 5, no order target, and a known location coded STAGE with id 3,
the client sends 5 while the fallback chain worded in the claim (target,
then STAGE, then first known location) yields 3. -/
theorem pick_staging_fallback_uses_form_selection :
    pickStagingArg none 5
        [Location.mk 3 "STAGE" "Stage" 1, Location.mk 7 "A1" "A1" 1] = 5 ∧
    claimedPickStagingArg none
        [Location.mk 3 "STAGE" "Stage" 1, Location.mk 7 "A1" "A1" 1] = 3 ∧
    (5 : Int) ≠ 3 := by
  refine ⟨by decide, by decide, by decide⟩

/-- C6 (amended): an outbound order is accepted at creation only if its
source location differs from its staging location, validated at creation and
not at pick time; at pick time the client falls back from the order target
to the staging location currently selected in the create form when one is
set, else to a location coded STAGE, else to the first known location, else
to 0. -/
theorem outbound_source_staging_validation (source staging t fs : Int)
    (locs : List Location) :
    (createOutboundAccepts source staging = true ↔ source ≠ staging) ∧
    (pickStagingArg (some t) fs locs = t) ∧
    (fs ≠ 0 → pickStagingArg none fs locs = fs) ∧
    (fs = 0 → ∀ l, locs.find? (fun x => x.code == "STAGE") = some l →
        l.id ≠ 0 → pickStagingArg none fs locs = l.id) ∧
    (fs = 0 → locs.find? (fun x => x.code == "STAGE") = none →
        ∀ h, locs.head? = some h → h.id ≠ 0 →
          pickStagingArg none fs locs = h.id) ∧
    (fs = 0 → locs = [] → pickStagingArg none fs locs = 0) := by
  refine ⟨?_, rfl, ?_, ?_, ?_, ?_⟩
  · simp [createOutboundAccepts, bne_iff_ne]
  · intro hfs
    simp [pickStagingArg, defaultStagingId, jsOrInt, hfs]
  · intro hfs l hfind hl0
    simp [pickStagingArg, defaultStagingId, jsOrInt, optLocId, hfs, hfind,
      hl0]
  · intro hfs hfind h hhead hh0
    simp [pickStagingArg, defaultStagingId, jsOrInt, optLocId, hfs, hfind,
      hhead, hh0]
  · intro hfs hnil
    subst hnil
    simp [pickStagingArg, defaultStagingId, jsOrInt, optLocId, hfs]

/-- Witness for C6 (amended): a creation with distinct source and staging is
accepted, and a pick with an empty form selection falls back to the STAGE
location. -/
theorem outbound_source_staging_validation_witness :
    createOutboundAccepts 1 2 = true ∧
    pickStagingArg none 0 [Location.mk 3 "STAGE" "Stage" 1] = 3 :=
  ⟨(outbound_source_staging_validation 1 2 0 0 []).1.mpr (by decide),
   (outbound_source_staging_validation 1 2 0 0
      [Location.mk 3 "STAGE" "Stage" 1]).2.2.2.1 rfl
      (Location.mk 3 "STAGE" "Stage" 1) (by decide) (by decide)⟩

/-- C10 counterexample: the value Z2024 contains a Z that is not a trailing
timezone designator; the code leaves it unchanged before parsing while the
claim wording appends a Z. -/
theorem formatDateTime_normalization_counterexample :
    normalizeTimestamp "Z2024" = "Z2024" ∧
    claimNormalizeTimestamp "Z2024" = "Z2024Z" ∧
    ("Z2024" : String) ≠ "Z2024Z" ∧
    containsZChar "Z2024" = true ∧
    endsWithUtcOffset "Z2024" = false := by
  refine ⟨by decide, by decide, by decide, by decide, by decide⟩

/-- C10 (amended): formatDateTime is a total function: it yields a dash for
null, undefined or the empty string; returns the input unchanged when it
does not parse; formats the parsed instant otherwise; and before parsing it
appends Z exactly when the value contains no z or Z anywhere and does not
end with a UTC offset. -/
theorem formatDateTime_total (parse : String → Option Int)
    (fmt : Int → String) :
    (formatDateTime parse fmt none = "-") ∧
    (formatDateTime parse fmt (some "") = "-") ∧
    (∀ s, s ≠ "" → parse (normalizeTimestamp s) = none →
        formatDateTime parse fmt (some s) = s) ∧
    (∀ s t, s ≠ "" → parse (normalizeTimestamp s) = some t →
        formatDateTime parse fmt (some s) = fmt t) ∧
    (∀ s, containsZChar s = false → endsWithUtcOffset s = false →
        normalizeTimestamp s = s ++ "Z") ∧
    (∀ s, containsZChar s = true ∨ endsWithUtcOffset s = true →
        normalizeTimestamp s = s) := by
  refine ⟨rfl, rfl, ?_, ?_, ?_, ?_⟩
  · intro s hs hp
    simp [formatDateTime, hs, hp]
  · intro s t hs hp
    simp [formatDateTime, hs, hp]
  · intro s h1 h2
    simp [normalizeTimestamp, hasTzDesignator, h1, h2]
  · intro s h
    rcases h with h | h <;> simp [normalizeTimestamp, hasTzDesignator, h]

/-- Witness for C10: a timestamp without designator is normalized with an
appended Z and formatted through the parser; an unparseable value is
returned unchanged. -/
theorem formatDateTime_total_witness :
    formatDateTime
        (fun str => if str = "2024-01-02T03:04:05Z" then
          some 1704164645000 else none)
        (fun _ => "2024/1/2 11:04:05") (some "2024-01-02T03:04:05") =
      "2024/1/2 11:04:05" ∧
    formatDateTime (fun _ => none) (fun _ => "") (some "not a date") =
      "not a date" :=
  ⟨(formatDateTime_total
      (fun str => if str = "2024-01-02T03:04:05Z" then
        some 1704164645000 else none)
      (fun _ => "2024/1/2 11:04:05")).2.2.2.1 "2024-01-02T03:04:05"
      1704164645000 (by decide) (by decide),
   (formatDateTime_total (fun _ => none) (fun _ => "")).2.2.1 "not a date"
      (by decide) rfl⟩

/-- Witness for C5: the spec scenario of reserving 150 units from a location
holding quantity 100 fails with InsufficientStock. -/
theorem reserveOutbound_force_zero_witness :
    (reserveOutbound 7).body = some "\x7b\"force\":0\x7d" ∧
    jsTruthyInt reserveForceValue = false ∧
    reserveStock (Inventory.mk 1 1 1 100 0 0) 150 (jsTruthyInt reserveForceValue) =
      .error .InsufficientStock :=
  reserveOutbound_force_zero 7 (Inventory.mk 1 1 1 100 0 0) 150 (by decide)

end Wms
